import Mathlib

/-!
Verification of the password-validation example in `src/panic.rs` of the
CIS198 lecture-5 repository (error handling in Rust).

The Rust code signals every failure by aborting (a Rust `panic`, an assert
failure or an `unwrap` on an error value).  We embed that shallowly: each
fallible operation returns an `Outcome`, whose `abort` constructor records
which abort site fired, and whose `ok` constructor carries the normal
return value.  File input is made explicit: the contents of the file system
are passed as a function from path to an optional list of lines (`none`
models a failing `File::open`).
-/

/-- The abort sites of `src/panic.rs`, in the order they appear in the file:
the five structural-validation aborts of `RawPassword::validate_is_good`,
the history abort of `RawPassword::validate_is_not_past_password`, the two
`unwrap` sites of `file_to_vec`, and the `expect` of `capitalize_firstchar`. -/
inductive AbortReason where
  | emptyPassword
  | tooShort (required : Nat)
  | missingDigit
  | missingSpecialChar
  | sameAsUsername
  | previouslyUsed
  | fileOpenFailed
  | lineParseFailed
  | expectedNonEmpty
  deriving DecidableEq, Repr

/-- Result of running a fragment of the Rust code: either a normal value or
an abort (the Rust program terminating via `panic`/`assert`/`unwrap`). -/
inductive Outcome (α : Type) where
  | ok (val : α)
  | abort (reason : AbortReason)
  deriving DecidableEq, Repr

/-- The file system seen by `file_to_vec`: a path maps to `none` when
`File::open` fails (for instance the file does not exist), otherwise to the
list of lines of the file. -/
def FileSystem : Type := String → Option (List String)

/-- `const MIN_PASS_LEN: usize = 5;` (src/panic.rs line 103). -/
def MIN_PASS_LEN : Nat := 5

/-- `is_number` from `validate_is_good`: Rust `char::is_ascii_digit`,
true exactly on U+0030 ('0') through U+0039 ('9'). -/
def is_number (ch : Char) : Bool :=
  48 ≤ ch.toNat && ch.toNat ≤ 57

/-- `is_special` from `validate_is_good`: Rust `char::is_ascii_punctuation`,
true exactly on U+0021..U+002F, U+003A..U+0040, U+005B..U+0060 and
U+007B..U+007E. -/
def is_special (ch : Char) : Bool :=
  (33 ≤ ch.toNat && ch.toNat ≤ 47) || (58 ≤ ch.toNat && ch.toNat ≤ 64) ||
    (91 ≤ ch.toNat && ch.toNat ≤ 96) || (123 ≤ ch.toNat && ch.toNat ≤ 126)

/-- `pub struct RawPassword` (src/panic.rs lines 105-109).  The struct and
all three of its fields are declared `pub`, so a caller outside the module
can also build one directly with a struct literal. -/
structure RawPassword where
  user : String
  pass : String
  salt : String
  deriving DecidableEq, Repr

/-- `RawPassword::hash` (src/panic.rs lines 125-129):
`self.user.len() + 3 * self.pass.len() + 7 * self.salt.len()`.
Rust `String::len` is the length in UTF-8 bytes. -/
def RawPassword.hash (self : RawPassword) : Nat :=
  self.user.utf8ByteSize + 3 * self.pass.utf8ByteSize + 7 * self.salt.utf8ByteSize

/-- `RawPassword::validate_is_good` (src/panic.rs lines 133-155).
Rust `String::is_empty` is `len() == 0` and `String::len` counts UTF-8
bytes; `.chars()` iterates over Unicode scalar values.  The two
`assert!` calls abort when their condition is false. -/
def RawPassword.validate_is_good (self : RawPassword) : Outcome Unit :=
  if self.pass.utf8ByteSize = 0 then
    .abort .emptyPassword
  else if self.pass.utf8ByteSize < MIN_PASS_LEN then
    .abort (.tooShort MIN_PASS_LEN)
  else if !(self.pass.data.any is_number) then
    .abort .missingDigit
  else if !(self.pass.data.any is_special) then
    .abort .missingSpecialChar
  else if self.pass = self.user then
    .abort .sameAsUsername
  else
    .ok ()

/-- A line parsed as a Rust `usize` (`line.parse()` in `file_to_vec`):
a non-empty run of decimal digits, read as a base-10 number, anything else
an error.  The Rust parser also accepts one leading plus sign and rejects
values above `usize::MAX`; neither detail is exercised below. -/
def parseLine (line : String) : Option Nat :=
  if line.data.isEmpty || !(line.data.all is_number) then
    none
  else
    some (line.data.foldl (fun n c => 10 * n + (c.toNat - 48)) 0)

/-- The loop body of `file_to_vec`: parse each line in order, aborting at
the first line whose `parse` returns an error (the second `unwrap`). -/
def parseLines : List String → Outcome (List Nat)
  | [] => .ok []
  | line :: rest =>
    match parseLine line with
    | none => .abort .lineParseFailed
    | some n =>
      match parseLines rest with
      | .ok ns => .ok (n :: ns)
      | .abort r => .abort r

/-- `file_to_vec` (src/panic.rs lines 171-177): `File::open(filepath).unwrap()`
aborts when the open fails, then every line is parsed with
`.parse().unwrap()`. -/
def file_to_vec (fs : FileSystem) (filepath : String) : Outcome (List Nat) :=
  match fs filepath with
  | none => .abort .fileOpenFailed
  | some lines => parseLines lines

/-- `RawPassword::validate_is_not_past_password` (src/panic.rs lines
157-166): read `"PAST_HASH_FILE"`, abort with the past-hash message if any
stored hash equals `self.hash()`. -/
def RawPassword.validate_is_not_past_password (fs : FileSystem)
    (self : RawPassword) : Outcome Unit :=
  match file_to_vec fs "PAST_HASH_FILE" with
  | .abort r => .abort r
  | .ok past_hashes =>
    if past_hashes.any (fun h => self.hash == h) then
      .abort .previouslyUsed
    else
      .ok ()

/-- `RawPassword::new_password` (src/panic.rs lines 113-124): build the
record (`format!` renders the numeric salt in decimal), run both
validations (each aborts on failure), then return the record. -/
def RawPassword.new_password (fs : FileSystem) (user pass : String)
    (salt : Nat) : Outcome RawPassword :=
  let result : RawPassword :=
    { user := user, pass := pass, salt := toString salt }
  match result.validate_is_good with
  | .abort r => .abort r
  | .ok _ =>
    match result.validate_is_not_past_password fs with
    | .abort r => .abort r
    | .ok _ => .ok result

/-- The Unicode uppercase expansion of one scalar value, Rust
`char::to_uppercase`.  Modelled for the scalar values exercised in this
development: ASCII lowercase letters map to the corresponding uppercase
letter, U+00DF (German sharp s) expands to two scalar values "SS", and
every other scalar value is left unchanged. -/
def rustToUppercase (c : Char) : List Char :=
  if 97 ≤ c.toNat && c.toNat ≤ 122 then
    [Char.ofNat (c.toNat - 32)]
  else if c.toNat = 223 then
    ['S', 'S']
  else
    [c]

/-- `capitalize_firstchar` (src/panic.rs lines 65-85): `s.chars().next()`
followed by `.expect(...)`, which aborts on the empty string; on a
non-empty string the result is `format!` of the uppercase expansion of the
first scalar value alone — the remaining characters of `s` are never used.
The uppercasing function of the standard library is a parameter
(instantiated with `rustToUppercase` below). -/
def capitalize_firstchar (toUpperFn : Char → List Char) (s : String) :
    Outcome String :=
  match s.data with
  | [] => .abort .expectedNonEmpty
  | ch :: _ => .ok (String.mk (toUpperFn ch))

/-!
## The validator's checks as the spec presents them

The spec describes validation as an ordered sequence of six independent
checks, the first failure determining the reported error.  Each check is
stated here as a total function of the credential (and, for the history
check, of the file system), to be compared with the short-circuiting
implementation above.
-/

/-- Spec check 1: non-empty password. -/
def check_empty (c : RawPassword) : Outcome Unit :=
  if c.pass.utf8ByteSize = 0 then .abort .emptyPassword else .ok ()

/-- Spec check 2: minimum length (as implemented: UTF-8 byte length). -/
def check_len (c : RawPassword) : Outcome Unit :=
  if c.pass.utf8ByteSize < MIN_PASS_LEN then .abort (.tooShort MIN_PASS_LEN)
  else .ok ()

/-- Spec check 3: at least one ASCII digit. -/
def check_digit (c : RawPassword) : Outcome Unit :=
  if !(c.pass.data.any is_number) then .abort .missingDigit else .ok ()

/-- Spec check 4: at least one ASCII punctuation character. -/
def check_special (c : RawPassword) : Outcome Unit :=
  if !(c.pass.data.any is_special) then .abort .missingSpecialChar else .ok ()

/-- Spec check 5: password differs from username. -/
def check_same (c : RawPassword) : Outcome Unit :=
  if c.pass = c.user then .abort .sameAsUsername else .ok ()

/-- Spec check 6: the credential's fingerprint does not occur in the
history store (itself fallible when the store cannot be read). -/
def check_history (fs : FileSystem) (c : RawPassword) : Outcome Unit :=
  c.validate_is_not_past_password fs

/-- The six checks in the order the spec lists them. -/
def orderedChecks (fs : FileSystem) (c : RawPassword) : List (Outcome Unit) :=
  [check_empty c, check_len c, check_digit c, check_special c, check_same c,
    check_history fs c]

/-- The first failing check of a list determines the result. -/
def firstFailure : List (Outcome Unit) → Outcome Unit
  | [] => .ok ()
  | check :: rest =>
    match check with
    | .ok _ => firstFailure rest
    | .abort r => .abort r

/-- All six validation checks succeed on the credential. -/
def passedAllChecks (fs : FileSystem) (c : RawPassword) : Prop :=
  check_empty c = .ok () ∧ check_len c = .ok () ∧ check_digit c = .ok () ∧
    check_special c = .ok () ∧ check_same c = .ok () ∧
    check_history fs c = .ok ()

/-- The ways code outside the module obtains a `RawPassword` value through
the public surface of src/panic.rs: either a call to
`RawPassword::new_password` that returns normally, or a struct-literal
expression — available to every caller because the struct and all three of
its fields are declared `pub` (src/panic.rs lines 105-109). -/
inductive CallerObtainable (fs : FileSystem) : RawPassword → Prop where
  | via_new_password (user pass : String) (salt : Nat) (c : RawPassword)
      (h : RawPassword.new_password fs user pass salt = .ok c) :
      CallerObtainable fs c
  | via_struct_literal (user pass salt : String) :
      CallerObtainable fs ⟨user, pass, salt⟩

/-- A file system on which the history file exists and is empty (an empty
file has no lines). -/
def emptyHistory : FileSystem := fun _ => some []

/-!
## Helper lemmas
-/

/-- If the first-failure combinator reports success, every check in the
list succeeded. -/
theorem firstFailure_ok_of_mem {l : List (Outcome Unit)}
    (h : firstFailure l = .ok ()) : ∀ x ∈ l, x = .ok () := by
  induction l with
  | nil => intro x hx; cases hx
  | cons a rest ih =>
    intro x hx
    cases a with
    | ok v =>
      cases v
      simp only [firstFailure] at h
      rcases List.mem_cons.mp hx with hx | hx
      · exact hx
      · exact ih h x hx
    | abort r => simp [firstFailure] at h

/-- The short-circuiting implementation of `new_password` computes exactly
the first failure of the six spec checks in order, and returns the built
record when none fails. -/
theorem new_password_eq_firstFailure (fs : FileSystem) (user pass : String)
    (salt : Nat) :
    RawPassword.new_password fs user pass salt =
      match firstFailure (orderedChecks fs ⟨user, pass, toString salt⟩) with
      | .ok _ => .ok ⟨user, pass, toString salt⟩
      | .abort r => .abort r := by
  simp only [RawPassword.new_password, RawPassword.validate_is_good,
    orderedChecks, check_empty, check_len, check_digit, check_special,
    check_same, check_history, RawPassword.validate_is_not_past_password]
  split_ifs <;> simp [firstFailure]
  cases hfv : file_to_vec fs "PAST_HASH_FILE" <;> simp [firstFailure, hfv]
  split_ifs <;> simp [firstFailure]

/-!
## The claims
-/

/-- Claim C1.  The claim says the six validation failures are reported as
returned result values and never via an unrecoverable fault.  The code does
the opposite: `new_password` signals every one of the six failures by
aborting the program.  At one concrete input per failure, the outcome is an
abort carrying that failure, never a returned error value (the Rust
signature returns `Self`, with no error channel at all). -/
theorem validator_aborts_for_each_validation_failure :
    RawPassword.new_password emptyHistory "caleb" "" 0 =
      .abort .emptyPassword ∧
    RawPassword.new_password emptyHistory "caleb" "a1!" 0 =
      .abort (.tooShort 5) ∧
    RawPassword.new_password emptyHistory "caleb" "abcdef!" 0 =
      .abort .missingDigit ∧
    RawPassword.new_password emptyHistory "caleb" "abcdef1" 0 =
      .abort .missingSpecialChar ∧
    RawPassword.new_password emptyHistory "a1!bc" "a1!bc" 0 =
      .abort .sameAsUsername ∧
    RawPassword.new_password (fun _ => some ["85"]) "caleb" "1234567!"
      20210225 = .abort .previouslyUsed := by
  decide

/-- Claim C2, counterexample.  The struct and its fields being `pub`, a
caller can build `RawPassword` by a struct literal, obtaining a credential
on which the validation checks never ran — here one whose password is empty,
failing the very first check. -/
theorem credential_obtainable_without_validation :
    CallerObtainable emptyHistory ⟨"caleb", "", "0"⟩ ∧
    ¬ passedAllChecks emptyHistory ⟨"caleb", "", "0"⟩ :=
  ⟨.via_struct_literal "caleb" "" "0", by simp only [passedAllChecks]; decide⟩

/-- Claim C2, amended.  A credential obtained from `new_password` (rather
than from a struct literal) has passed all six validation checks. -/
theorem new_password_ok_implies_passedAllChecks (fs : FileSystem)
    (user pass : String) (salt : Nat) (c : RawPassword)
    (h : RawPassword.new_password fs user pass salt = .ok c) :
    passedAllChecks fs c := by
  rw [new_password_eq_firstFailure] at h
  cases hff : firstFailure (orderedChecks fs ⟨user, pass, toString salt⟩) with
  | abort r => rw [hff] at h; cases h
  | ok v =>
    cases v
    rw [hff] at h
    simp only [Outcome.ok.injEq] at h
    subst h
    have hall := firstFailure_ok_of_mem hff
    refine ⟨?_, ?_, ?_, ?_, ?_, ?_⟩ <;> apply hall <;> simp [orderedChecks]

/-- Witness for the amended claim C2, at the repository's own example
input. -/
theorem new_password_ok_implies_passedAllChecks_witness :
    passedAllChecks emptyHistory ⟨"caleb", "1234567!", "20210225"⟩ :=
  new_password_ok_implies_passedAllChecks emptyHistory "caleb" "1234567!"
    20210225 ⟨"caleb", "1234567!", "20210225"⟩ (by decide)

/-- Claim C3, counterexample.  The claim says the uppercased first scalar
value is followed by the rest of the string, so that capitalize of "hello"
is "Hello", and that the empty string yields an `EmptyInput` error value.
In the code the rest of the string is discarded — capitalize of "hello" is
just "H" — and the empty string aborts through `expect`. -/
theorem capitalize_firstchar_drops_tail :
    capitalize_firstchar rustToUppercase "hello" = .ok "H" ∧
    ("H" : String) ≠ "Hello" ∧
    capitalize_firstchar rustToUppercase "" = .abort .expectedNonEmpty := by
  decide

/-- Claim C3, amended.  On any non-empty string the result is exactly the
uppercase expansion of the first scalar value — for every uppercasing
function, independent of the remaining characters, which are dropped — and
on the empty string the function aborts (the `expect` call) instead of
returning an error value. -/
theorem capitalize_firstchar_first_scalar_only :
    (∀ (fn : Char → List Char) (c : Char) (ts : List Char),
      capitalize_firstchar fn (String.mk (c :: ts)) = .ok (String.mk (fn c))) ∧
    capitalize_firstchar rustToUppercase "" = .abort .expectedNonEmpty ∧
    capitalize_firstchar rustToUppercase "hello" = .ok "H" :=
  ⟨fun _ _ _ => rfl, by decide, by decide⟩

/-- Claim C4, counterexample.  The claim measures the minimum length in
Unicode scalar values; the code measures UTF-8 bytes (`String::len`).  The
password of three scalar values é é é occupies six bytes, so the validator
does not report it too short — it reports the missing digit instead. -/
theorem tooShort_counts_bytes_not_scalars :
    ("ééé" : String).data.length = 3 ∧
    RawPassword.new_password emptyHistory "caleb" "ééé" 0 =
      .abort .missingDigit ∧
    (Outcome.abort .missingDigit : Outcome RawPassword) ≠
      .abort (.tooShort 5) := by
  decide

/-- Claim C4, amended.  For every password whose UTF-8 byte length is
non-zero and below `MIN_PASS_LEN`, validation reports the too-short
failure (required length 5), regardless of the password's content, the
username, the salt and the file system. -/
theorem tooShort_when_bytes_below_min (fs : FileSystem) (user pass : String)
    (salt : Nat) (h0 : 0 < pass.utf8ByteSize)
    (h5 : pass.utf8ByteSize < MIN_PASS_LEN) :
    RawPassword.new_password fs user pass salt = .abort (.tooShort 5) := by
  simp only [RawPassword.new_password, RawPassword.validate_is_good]
  rw [if_neg (by omega), if_pos h5]
  rfl

/-- Witness for the amended claim C4, at a three-byte password. -/
theorem tooShort_when_bytes_below_min_witness :
    0 < ("a1!" : String).utf8ByteSize ∧
    ("a1!" : String).utf8ByteSize < MIN_PASS_LEN ∧
    RawPassword.new_password emptyHistory "caleb" "a1!" 0 =
      .abort (.tooShort 5) :=
  ⟨by decide, by decide,
    tooShort_when_bytes_below_min emptyHistory "caleb" "a1!" 0 (by decide)
      (by decide)⟩

/-- Claim C5.  The claim says an unreadable history store yields a returned
`HistoryUnavailable` error value.  The code instead aborts: with an
otherwise-valid password, a failing open of the history file hits the first
`unwrap` of `file_to_vec`, and a line that does not parse as a number hits
the second; in both cases the program terminates and no value — neither a
credential nor an error — is returned. -/
theorem history_unreadable_aborts :
    RawPassword.new_password (fun _ => none) "caleb" "1234567!" 20210225 =
      .abort .fileOpenFailed ∧
    RawPassword.new_password (fun _ => some ["not a number"]) "caleb"
      "1234567!" 20210225 = .abort .lineParseFailed := by
  decide

/-- Claim C6.  Validation is an ordered short-circuit sequence: for every
input, `new_password` reports exactly the first failing check in the order
emptiness, minimum length, digit, punctuation, identity-with-username,
history; in particular the empty password with the empty username reports
the empty-password failure, not the same-as-username failure. -/
theorem validation_ordered_short_circuit :
    (∀ (fs : FileSystem) (user pass : String) (salt : Nat),
      RawPassword.new_password fs user pass salt =
        match firstFailure (orderedChecks fs ⟨user, pass, toString salt⟩) with
        | .ok _ => .ok ⟨user, pass, toString salt⟩
        | .abort r => .abort r) ∧
    RawPassword.new_password emptyHistory "" "" 0 = .abort .emptyPassword ∧
    AbortReason.emptyPassword ≠ .sameAsUsername :=
  ⟨new_password_eq_firstFailure, by decide, by decide⟩

/-- Claim C7.  Every password that passes the emptiness and minimum-length
checks but contains no ASCII digit is reported as missing a digit,
whatever the username, salt, file system and remaining checks. -/
theorem missingDigit_when_no_digit (fs : FileSystem) (user pass : String)
    (salt : Nat) (hlen : MIN_PASS_LEN ≤ pass.utf8ByteSize)
    (hnd : pass.data.any is_number = false) :
    RawPassword.new_password fs user pass salt = .abort .missingDigit := by
  have h5 : 5 ≤ pass.utf8ByteSize := hlen
  simp only [RawPassword.new_password, RawPassword.validate_is_good]
  rw [if_neg (by omega), if_neg (not_lt.mpr hlen), if_pos (by simp [hnd])]

/-- Witness for claim C7, at a digit-free password of seven characters. -/
theorem missingDigit_when_no_digit_witness :
    MIN_PASS_LEN ≤ ("abcdef!" : String).utf8ByteSize ∧
    ("abcdef!" : String).data.any is_number = false ∧
    RawPassword.new_password emptyHistory "caleb" "abcdef!" 0 =
      .abort .missingDigit :=
  ⟨by decide, by decide,
    missingDigit_when_no_digit emptyHistory "caleb" "abcdef!" 0 (by decide)
      (by decide)⟩

/-- Claim C8.  Every password exactly equal to the username that passes the
emptiness, length, digit and punctuation checks is reported as being the
same as the username. -/
theorem sameAsUsername_when_pass_equals_user (fs : FileSystem)
    (user pass : String) (salt : Nat) (heq : pass = user)
    (hlen : MIN_PASS_LEN ≤ pass.utf8ByteSize)
    (hd : pass.data.any is_number = true)
    (hp : pass.data.any is_special = true) :
    RawPassword.new_password fs user pass salt = .abort .sameAsUsername := by
  have h5 : 5 ≤ pass.utf8ByteSize := hlen
  simp only [RawPassword.new_password, RawPassword.validate_is_good]
  rw [if_neg (by omega), if_neg (not_lt.mpr hlen), if_neg (by simp [hd]),
    if_neg (by simp [hp]), if_pos heq]

/-- Witness for claim C8, at a username used verbatim as the password. -/
theorem sameAsUsername_when_pass_equals_user_witness :
    MIN_PASS_LEN ≤ ("a1!bc" : String).utf8ByteSize ∧
    ("a1!bc" : String).data.any is_number = true ∧
    ("a1!bc" : String).data.any is_special = true ∧
    RawPassword.new_password emptyHistory "a1!bc" "a1!bc" 0 =
      .abort .sameAsUsername :=
  ⟨by decide, by decide, by decide,
    sameAsUsername_when_pass_equals_user emptyHistory "a1!bc" "a1!bc" 0 rfl
      (by decide) (by decide) (by decide)⟩

/-- Claim C9.  For username "caleb", password "1234567!", salt 20210225:
the five structural checks pass (eight bytes of length, a digit, the
punctuation mark, different from the username), the fingerprint is 85, and
against any readable history the outcome is the previously-used failure
when 85 occurs in the store and the validated credential otherwise. -/
theorem caleb_result_determined_by_history :
    (("1234567!" : String).utf8ByteSize = 8 ∧
      ¬ ("1234567!" : String).utf8ByteSize < MIN_PASS_LEN ∧
      ("1234567!" : String).data.any is_number = true ∧
      ("1234567!" : String).data.any is_special = true ∧
      ("1234567!" : String) ≠ "caleb" ∧
      RawPassword.hash ⟨"caleb", "1234567!", "20210225"⟩ = 85) ∧
    ∀ (fs : FileSystem) (hs : List Nat),
      file_to_vec fs "PAST_HASH_FILE" = .ok hs →
      RawPassword.new_password fs "caleb" "1234567!" 20210225 =
        if 85 ∈ hs then .abort .previouslyUsed
        else .ok ⟨"caleb", "1234567!", "20210225"⟩ := by
  refine ⟨by decide, ?_⟩
  intro fs hs hfv
  rw [new_password_eq_firstFailure]
  have hsalt : (toString 20210225 : String) = "20210225" := by decide
  rw [hsalt]
  have h1 : check_empty ⟨"caleb", "1234567!", "20210225"⟩ = .ok () := by decide
  have h2 : check_len ⟨"caleb", "1234567!", "20210225"⟩ = .ok () := by decide
  have h3 : check_digit ⟨"caleb", "1234567!", "20210225"⟩ = .ok () := by decide
  have h4 : check_special ⟨"caleb", "1234567!", "20210225"⟩ = .ok () := by
    decide
  have h5 : check_same ⟨"caleb", "1234567!", "20210225"⟩ = .ok () := by decide
  have hhash : RawPassword.hash ⟨"caleb", "1234567!", "20210225"⟩ = 85 := by
    decide
  simp only [orderedChecks, h1, h2, h3, h4, h5, check_history,
    RawPassword.validate_is_not_past_password, hfv, hhash, firstFailure]
  by_cases hmem : (85 : Nat) ∈ hs <;> simp [hmem]

/-- Witness for claim C9, against a history holding exactly the
fingerprint 85. -/
theorem caleb_result_determined_by_history_witness :
    RawPassword.new_password (fun _ => some ["85"]) "caleb" "1234567!"
      20210225 =
      if 85 ∈ [85] then Outcome.abort .previouslyUsed
      else .ok ⟨"caleb", "1234567!", "20210225"⟩ :=
  caleb_result_determined_by_history.2 (fun _ => some ["85"]) [85] (by decide)

/-- Claim C10.  The fingerprint is the weighted sum of the UTF-8 byte
lengths of the three fields, so two credentials with pairwise equal field
lengths share a fingerprint whatever their contents. -/
theorem hash_depends_only_on_field_lengths :
    (∀ c : RawPassword,
      c.hash = c.user.utf8ByteSize + 3 * c.pass.utf8ByteSize +
        7 * c.salt.utf8ByteSize) ∧
    ∀ c₁ c₂ : RawPassword,
      c₁.user.utf8ByteSize = c₂.user.utf8ByteSize →
      c₁.pass.utf8ByteSize = c₂.pass.utf8ByteSize →
      c₁.salt.utf8ByteSize = c₂.salt.utf8ByteSize →
      c₁.hash = c₂.hash :=
  ⟨fun _ => rfl, fun c₁ c₂ h1 h2 h3 => by
    simp [RawPassword.hash, h1, h2, h3]⟩

/-- Witness for claim C10: two credentials agreeing only in field lengths
hash identically. -/
theorem hash_depends_only_on_field_lengths_witness :
    RawPassword.hash ⟨"aaaaa", "11111111", "00000000"⟩ =
      RawPassword.hash ⟨"caleb", "1234567!", "20210225"⟩ :=
  hash_depends_only_on_field_lengths.2 ⟨"aaaaa", "11111111", "00000000"⟩
    ⟨"caleb", "1234567!", "20210225"⟩ (by decide) (by decide) (by decide)
